import Mathlib

/-!
Verification of the `dylanjcastillo/blog` utility scripts against their
natural-language specification.

Shallow embedding of:
* `src/scripts/is-pydantic-making-your-model-dumber/reasoning.py`
  (label enumeration, label-to-template mapping, the two concurrency-bounded
  batch stages over structured-output model calls),
* `src/scripts/is-pydantic-making-your-model-dumber/update_livebench_questions.py`
  and `src/extras/update_livebench_questions.py`
  (pandas string-replacement pipelines with fail-fast shape assertions).

Conventions of the embedding:
* Python/pandas `str.replace(pat, rep)` with its default literal
  (non-regex) semantics — left-to-right, non-overlapping replacement of
  every occurrence — is modelled by `pyReplace` below.  (The patterns used
  by the scripts, such as `"**"`, are not valid regular expressions, so the
  scripts only run under the literal-replacement default.)
* Python `str.strip()` is modelled by `pyStrip` (drop whitespace from both
  ends).
* A structured-output model call is an opaque function returning
  `Except CallError α`: `Except.error` covers both a schema violation and a
  transport failure, the two fatal outcomes named by the spec.
* `asyncio.gather` over a task list is modelled by `gatherExcept`:
  it yields the full result list when every task succeeds and propagates an
  error of a failed task otherwise (all-or-nothing, no partial list).
* The `asyncio.Semaphore(concurrency)` discipline of
  `run_model_with_instructor` is modelled separately as a transition system
  (`SemStep`) whose `start` transition is enabled only while fewer than `K`
  operations are in flight.
-/

/-- One fuel step per consumed character.  `pyReplaceFuel pat rep fuel s`
replaces occurrences of `pat` by `rep` in `s`, scanning left to right,
non-overlapping, as Python's literal `str.replace` does.  The fuel is always
instantiated with at least `s.length`, which is enough to finish the scan;
the patterns used in this development are all nonempty. -/
def pyReplaceFuel (pat rep : List Char) : Nat → List Char → List Char
  | _, [] => []
  | 0, s => s
  | fuel + 1, c :: rest =>
    if pat ≠ [] ∧ pat.isPrefixOf (c :: rest) then
      rep ++ pyReplaceFuel pat rep fuel (rest.drop (pat.length - 1))
    else
      c :: pyReplaceFuel pat rep fuel rest

/-- Python's `s.replace(pat, rep)` on exploded strings. -/
def pyReplace (pat rep s : List Char) : List Char :=
  pyReplaceFuel pat rep s.length s

/-- Python's `s.replace(pat, rep)` on `String`. -/
def pyReplaceS (pat rep s : String) : String :=
  String.mk (pyReplace pat.data rep.data s.data)

/-- Python's `s.strip()`: drop Unicode whitespace from both ends. -/
def pyStrip (s : List Char) : List Char :=
  (((s.dropWhile Char.isWhitespace).reverse).dropWhile Char.isWhitespace).reverse

/-- Python's `s.strip()` on `String`. -/
def pyStripS (s : String) : String :=
  String.mk (pyStrip s.data)

/-- `noTwoAdjB c s` holds when `s` has no two adjacent occurrences of the
character `c`, i.e. no substring `[c, c]`. -/
def noTwoAdjB (c : Char) : List Char → Bool
  | a :: b :: t => (!(a == c && b == c)) && noTwoAdjB c (b :: t)
  | _ => true

/-- `noEdgeSpace s` holds when `s` neither starts nor ends with a
whitespace character. -/
def noEdgeSpace (s : List Char) : Bool :=
  (match s.head? with
   | some d => !d.isWhitespace
   | none => true) &&
  (match s.getLast? with
   | some d => !d.isWhitespace
   | none => true)

/-!  ## Embedding of `reasoning.py`  -/

/-- `class FormatType(Enum)` of `reasoning.py` (lines 20–26): the closed set
of answer-format categories the classifier may emit. -/
inductive FormatType
  | T1
  | T2
  | T3
  | T4
  | T5
  | OTHER
deriving DecidableEq, Fintype, Repr

/-- The `.value` of each `FormatType` member: the descriptive string used in
prompts, transcribed from `reasoning.py` lines 21–26. -/
def FormatType.value : FormatType → String
  | .T1 => "Bold formatting for a single phrase. Example: Think step by step, and then put your answer in **bold** as a single phrase (for example, **sphere**)."
  | .T2 => "Bold formatting for a list of three words. Example: Think step by step, and then put your answer in **bold** as a list of three words, yes or no (for example, **yes, no, yes**)."
  | .T3 => "Bold formatting for a single integer. Example: Think step by step, and then put your answer in **bold** as a single integer (for example, **0**)."
  | .T4 => "Return a single digit number. Example: Return a single digit number, in the following format: **N**, where N is the position."
  | .T5 => "Return your answer as a single word. Example: Return your answer as a single word, in the following format: **X**, where X is the answer."
  | .OTHER => "Other formatting requirements. Example: Other formatting requirements (if none of the above apply)"

/-- The `.name` of each `FormatType` member (Python `Enum.name`). -/
def FormatType.name : FormatType → String
  | .T1 => "T1"
  | .T2 => "T2"
  | .T3 => "T3"
  | .T4 => "T4"
  | .T5 => "T5"
  | .OTHER => "OTHER"

/-- The members of `FormatType` in declaration order. -/
def FormatType.all : List FormatType :=
  [.T1, .T2, .T3, .T4, .T5, .OTHER]

/-- `format_mapping` of `reasoning.py` (lines 29–35): the dictionary from
label name to canonical rewrite-instruction template.  Note that it has
entries for `T1`–`T5` only; the Python dict has no `OTHER` key. -/
def format_mapping : List (String × String) :=
  [(FormatType.name .T1, "Put your answer as a single phrase (for example, sphere)."),
   (FormatType.name .T2, "Put your answer as a list of three words, yes or no (for example, yes, no, yes)."),
   (FormatType.name .T3, "Put your answer as a single integer (for example, 0)."),
   (FormatType.name .T4, "Return a single digit number, in the following format: N, where N is the position."),
   (FormatType.name .T5, "Return your answer as a single word, in the following format: X, where X is the answer.")]

/-- Dictionary subscript `format_mapping[k]`: `none` models Python's
`KeyError`. -/
def lookupTemplate (k : String) : Option String :=
  format_mapping.lookup k

/-- `class FormatClassification(BaseModel)` (lines 38–41): the response
schema of the classification call — exactly one `FormatType`. -/
structure FormatClassification where
  classification : FormatType
deriving DecidableEq, Repr

/-- `class UpdatedQuestion(BaseModel)` (lines 47–48): the response schema of
the rewrite call — a single string field. -/
structure UpdatedQuestion where
  updated_question : String
deriving DecidableEq, Repr

/-- `system_prompt_classification_reasoning` of `reasoning.py`. -/
def system_prompt_classification_reasoning : String :=
  "You're a helpful assistant. I will provide you with a question and you will classify the formatting requirements of the output of the provided question into the most appropriate category."

/-- `system_prompt_replace_reasoning_format` of `reasoning.py` (the two
adjacent Python string literals concatenate). -/
def system_prompt_replace_reasoning_format : String :=
  "You're a helpful assistant. I will provide you with a question and the old formatting requirements. Your task is to replace the old formatting requirements with the new ones." ++
  "Please return the full text of the question with the new formatting requirements. Don't include any other text. Don't include 'Question:' or 'Old formatting:' or 'New formatting:'"

/-- Fatal outcomes of one structured-output call (spec §7): the external
model's output cannot be coerced to the response schema, or the call fails
at the transport layer.  Both propagate identically. -/
inductive CallError
  | schemaViolation
  | transportError
deriving DecidableEq, Repr

/-- Errors of the rewrite stage: a Python `KeyError` raised while building a
prompt from `format_mapping`, or a propagated call error. -/
inductive StageError
  | keyError (key : String)
  | call (e : CallError)
deriving DecidableEq, Repr

/-- A row of the dataframe as consumed by `classify_reasoning_questions`:
only `row.turns_str` is read. -/
structure ReasoningRow where
  turns_str : String
deriving DecidableEq, Repr

/-- A row of the dataframe as consumed by
`replace_reasoning_questions_format`: `row.turns_str` and
`row.classification` are read. -/
structure ClassifiedRow where
  turns_str : String
  classification : FormatType
deriving DecidableEq, Repr

/-- `asyncio.gather` over already-determined task outcomes: the full list of
results when every task succeeded, otherwise an error of a failed task
(all-or-nothing; no partial result list is ever produced). -/
def gatherExcept {ε α : Type} : List (Except ε α) → Except ε (List α)
  | [] => Except.ok []
  | t :: ts =>
    match t with
    | Except.error e => Except.error e
    | Except.ok a =>
      match gatherExcept ts with
      | Except.error e => Except.error e
      | Except.ok as => Except.ok (a :: as)

/-- The user message built by `classify_reasoning_questions` for one row
(`f"Question:\n{row.turns_str}"`). -/
def classifyUserMessage (row : ReasoningRow) : String :=
  "Question:\n" ++ row.turns_str

/-- `classify_reasoning_questions` (lines 75–88), with the structured-output
call abstracted as `model system_message user_message`.  Each row yields one
task; `asyncio.gather` joins them; on success the stage returns
`[r.classification for r in responses]`. -/
def classify_reasoning_questions
    (model : String → String → Except CallError FormatClassification)
    (df : List ReasoningRow) : Except CallError (List FormatType) :=
  match gatherExcept (df.map fun row =>
      model system_prompt_classification_reasoning (classifyUserMessage row)) with
  | Except.error e => Except.error e
  | Except.ok rs => Except.ok (rs.map FormatClassification.classification)

/-- The user message built by `replace_reasoning_questions_format` for one
row.  The f-string subscripts `format_mapping[row.classification.name]`
eagerly, inside the task-list comprehension: a missing key raises `KeyError`
there, before any call is gathered. -/
def buildRewriteMessage (row : ClassifiedRow) : Except StageError String :=
  match lookupTemplate (FormatType.name row.classification) with
  | none => Except.error (StageError.keyError (FormatType.name row.classification))
  | some tmpl =>
    Except.ok ("Question:\n" ++ row.turns_str ++ "\nOld formatting:\n" ++
      FormatType.value row.classification ++ "\nNew formatting:" ++ tmpl ++ "\n")

/-- The prompt-construction phase of `replace_reasoning_questions_format`:
the list comprehension builds every row's user message in order; the first
missing `format_mapping` key aborts it with that `KeyError`. -/
def buildRewriteMessages (df : List ClassifiedRow) : Except StageError (List String) :=
  gatherExcept (df.map buildRewriteMessage)

/-- `replace_reasoning_questions_format` (lines 91–104): first all user
messages are built (a `KeyError` there aborts the stage before any model
call exists), then all calls are gathered all-or-nothing, and on success the
stage returns `[r.updated_question for r in responses]`. -/
def replace_reasoning_questions_format
    (model : String → String → Except CallError UpdatedQuestion)
    (df : List ClassifiedRow) : Except StageError (List String) :=
  match buildRewriteMessages df with
  | Except.error e => Except.error e
  | Except.ok msgs =>
    match gatherExcept (msgs.map fun m =>
        (model system_prompt_replace_reasoning_format m).mapError StageError.call) with
    | Except.error e => Except.error e
    | Except.ok rs => Except.ok (rs.map UpdatedQuestion.updated_question)

/-- The default value of the `concurrency` parameter of both stage
functions (`concurrency: int = 30`). -/
def defaultConcurrency : Nat := 30

/-- A deterministic, always-succeeding classifier model: the structured
call returns a `FormatClassification` computed from the user message. -/
def pureClassifier (g : String → FormatClassification) :
    String → String → Except CallError FormatClassification :=
  fun _ u => Except.ok (g u)

/-- A deterministic, always-succeeding rewriter model. -/
def pureRewriter (g : String → UpdatedQuestion) :
    String → String → Except CallError UpdatedQuestion :=
  fun _ u => Except.ok (g u)

/-- Total variant of `buildRewriteMessage`, defined on the rows whose label
has a `format_mapping` entry (everything except `OTHER`); used to state
results about successful prompt construction. -/
def rewriteMessageTotal (row : ClassifiedRow) : String :=
  match lookupTemplate (FormatType.name row.classification) with
  | none => ""
  | some tmpl =>
    "Question:\n" ++ row.turns_str ++ "\nOld formatting:\n" ++
      FormatType.value row.classification ++ "\nNew formatting:" ++ tmpl ++ "\n"

/-!  ## The semaphore discipline of `run_model_with_instructor`

`run_model_with_instructor` (lines 57–72) wraps its single outbound call in
`async with semaphore`, and each stage creates `Semaphore(concurrency)`
shared by all of that stage's tasks.  The admission discipline is modelled
as a transition system over the phases of the per-record operations: an
operation may move from `pending` to `running` (acquire the semaphore and
issue its call) only while fewer than `K` operations are `running`, and a
`running` operation may move to `done` (its call returned, the scoped
acquisition releases the slot even on failure).  -/

/-- Phase of one record's operation within a stage run. -/
inductive TaskPhase
  | pending
  | running
  | done
deriving DecidableEq, Repr

/-- State of one stage's batch run: the phase of every record's task. -/
structure SemState where
  tasks : List TaskPhase
deriving DecidableEq, Repr

/-- Number of operations currently in flight awaiting their external
call. -/
def inFlight (s : SemState) : Nat :=
  s.tasks.count TaskPhase.running

/-- One scheduler step under `Semaphore(K)`: `start` models acquiring the
semaphore (`async with semaphore` admits only while the count is below
`K`); `finish` models the call returning and the slot being released. -/
inductive SemStep (K : Nat) : SemState → SemState → Prop
  | start (s : SemState) (i : Nat) (hi : i < s.tasks.length)
      (hp : s.tasks[i] = TaskPhase.pending) (hk : inFlight s < K) :
      SemStep K s ⟨s.tasks.set i TaskPhase.running⟩
  | finish (s : SemState) (i : Nat) (hi : i < s.tasks.length)
      (hr : s.tasks[i] = TaskPhase.running) :
      SemStep K s ⟨s.tasks.set i TaskPhase.done⟩

/-- Initial state of a batch over `n` records: every task pending. -/
def semInit (n : Nat) : SemState :=
  ⟨List.replicate n TaskPhase.pending⟩

/-- The states a batch run over `n` records can reach under
`Semaphore(K)`. -/
def SemReachable (K n : Nat) (s : SemState) : Prop :=
  Relation.ReflTransGen (SemStep K) (semInit n) s

/-!  ## Completion-order model of `asyncio.gather`'s result slots

`asyncio.gather` stores each task's result at the task's submission index
as the tasks complete, in whatever temporal order they complete; the
returned list reads those slots in submission order. -/

/-- Fill result slots in completion order: `completeTasks f order acc`
processes the completion events `order` (each event `i` writes task `i`'s
result `f i` into slot `i`) starting from the partial assignment `acc`. -/
def completeTasks {α : Type} (f : Nat → α) : List Nat → (Nat → Option α) → Nat → Option α
  | [], acc => acc
  | i :: rest, acc =>
    completeTasks f rest (fun j => if j = i then some (f i) else acc j)

/-!  ## Embedding of the two `update_livebench_questions.py` scripts -/

/-- One line of a `question.jsonl` input file, restricted to the fields the
scripts read: the `turns` array, the `ground_truth` string and the `task`
string.  (The reasoning/language stages ignore `task`.) -/
structure InputRecord where
  turns : List String
  ground_truth : String
  task : String
deriving DecidableEq, Repr

/-- The failure of a Python `assert` statement. -/
inductive DataError
  | assertionFailed
deriving DecidableEq, Repr

namespace ScriptsUpdate

/-!  `src/scripts/is-pydantic-making-your-model-dumber/update_livebench_questions.py` -/

/-- The replacement chain of `process_reasoning_questions` in the
`scripts/` version (lines 36–40): drop `"in **bold**"`, drop `"**"`,
strip. -/
def scripts_updated_question (s : String) : String :=
  pyStripS (pyReplaceS "**" "" (pyReplaceS "in **bold**" "" s))

/-- One output record of the `scripts/` `process_reasoning_questions`: the
input record enriched with `data_point_id` (the positional index exposed by
`reset_index().rename(columns={"index": "data_point_id"})`), `turns_str`
(first element of `turns`; `none` models pandas `NaN` when `turns` is
empty), the stripped `ground_truth` and `updated_question`. -/
structure ReasoningOut where
  data_point_id : Nat
  turns : List String
  ground_truth : String
  turns_str : Option String
  updated_question : Option String
deriving DecidableEq, Repr

/-- The header of the table written by the `scripts/` version's
`to_csv`/`to_json` calls, for the minimally modelled input columns: the
renamed index column comes first, then the input columns, then the two
assigned columns. -/
def reasoningColumns : List String :=
  ["data_point_id", "turns", "ground_truth", "turns_str", "updated_question"]

/-- `process_reasoning_questions` of the `scripts/` version (lines 24–44):
read the records, assign `turns_str`/stripped `ground_truth`, move the
positional index into a `data_point_id` column, `assert` that every
record's `turns` has exactly one element (aborting before anything is
written), compute `updated_question`, and only then write the outputs — the
`Except.ok` payload is the record list the two output files serialise. -/
def process_reasoning_questions (df : List InputRecord) :
    Except DataError (List ReasoningOut) :=
  if df.all (fun r => r.turns.length == 1) then
    Except.ok (df.enum.map fun p =>
      { data_point_id := p.1
        turns := p.2.turns
        ground_truth := pyStripS p.2.ground_truth
        turns_str := p.2.turns.head?
        updated_question := p.2.turns.head?.map scripts_updated_question })
  else Except.error DataError.assertionFailed

end ScriptsUpdate

namespace ExtrasUpdate

/-!  `src/extras/update_livebench_questions.py` -/

/-- The replacement chain of `process_reasoning_questions` in the `extras/`
version (lines 29–34): drop `"in **bold** "` (trailing space), drop
`"***"`, drop `"**"`, strip. -/
def extras_updated_question (s : String) : String :=
  pyStripS (pyReplaceS "**" "" (pyReplaceS "***" "" (pyReplaceS "in **bold** " "" s)))

/-- One output record of the `extras/` `process_reasoning_questions`: no
index column is added in this version. -/
structure ReasoningOut where
  turns : List String
  ground_truth : String
  turns_str : Option String
  updated_question : Option String
deriving DecidableEq, Repr

/-- The header of the table written by the `extras/` version, for the
minimally modelled input columns: no `data_point_id`. -/
def reasoningColumns : List String :=
  ["turns", "ground_truth", "turns_str", "updated_question"]

/-- `process_reasoning_questions` of the `extras/` version (lines 22–39). -/
def process_reasoning_questions (df : List InputRecord) :
    Except DataError (List ReasoningOut) :=
  if df.all (fun r => r.turns.length == 1) then
    Except.ok (df.map fun r =>
      { turns := r.turns
        ground_truth := pyStripS r.ground_truth
        turns_str := r.turns.head?
        updated_question := r.turns.head?.map extras_updated_question })
  else Except.error DataError.assertionFailed

/-- The replacement chain of `process_math_questions` (lines 73–103):
strip, six literal replacements, strip.  Literal braces are written with
their character codes. -/
def math_updated_question (s : String) : String :=
  pyStripS
    (pyReplaceS "Remember to have the three digits as the last part of the response."
      "Your answer should not include any other text except the three digits."
      (pyReplaceS "Your final answer should be STRICTLY in the format:\n\n<Detailed reasoning>\n\nAnswer: <comma separated list of numbers representing expression identifiers>"
        "Please think step by step out loud and provide your answer as a comma separated list of numbers representing expression identifiers (e.g., 1,2,3). Don't include any other text except a comma separated list of numbers in your answer."
        (pyReplaceS "Once you have your answer, please duplicate that letter five times in a single string. For example, if the answer is F, then write FFFFF."
          "Please think step by step out loud and provide your answer as a single letter (e.g., F or A). Don't include any other text except a single letter in your answer."
          (pyReplaceS "Please think step by step, and then display the answer at the very end of your response."
            "Please think step by step out loud and provide your answer at the end."
            (pyReplaceS "If you cannot determine the correct multiple-choice answer, take your best guess."
              "If you cannot determine the correct answer, take your best guess."
              (pyReplaceS " Please put your final answer in a $\\\\boxed\x7b\x7d$."
                "Please think step by step out loud and provide your answer at the end."
                (pyStripS s)))))))

/-- One output record of `process_math_questions`: the record's `task` is
kept, no index column is added. -/
structure MathOut where
  task : String
  turns : List String
  ground_truth : String
  turns_str : Option String
  updated_question : Option String
deriving DecidableEq, Repr

/-- `process_math_questions` of the `extras/` version (lines 64–109): first
`query("task != 'AMPS_Hard'")` drops the `AMPS_Hard` records, then the
remaining records are enriched and `updated_question` is computed, then the
`assert` checks the shape of the *remaining* records, and only on success
are the outputs written (the `Except.ok` payload). -/
def process_math_questions (df : List InputRecord) :
    Except DataError (List MathOut) :=
  let dfq := df.filter (fun r => r.task != "AMPS_Hard")
  if dfq.all (fun r => r.turns.length == 1) then
    Except.ok (dfq.map fun r =>
      { task := r.task
        turns := r.turns
        ground_truth := pyStripS r.ground_truth
        turns_str := r.turns.head?
        updated_question := r.turns.head?.map math_updated_question })
  else Except.error DataError.assertionFailed

end ExtrasUpdate

/-!  ## Helper lemmas about `gatherExcept` -/

/-- `gatherExcept` succeeds exactly when every task succeeds. -/
theorem gatherExcept_ok_iff {ε α : Type} (ts : List (Except ε α)) :
    (∃ as, gatherExcept ts = Except.ok as) ↔ ∀ t ∈ ts, ∃ a, t = Except.ok a := by
  induction ts with
  | nil => simp [gatherExcept]
  | cons t ts ih =>
    cases t with
    | error e => simp [gatherExcept]
    | ok a =>
      constructor
      · rintro ⟨as, has⟩
        cases hg : gatherExcept ts with
        | error e => simp [gatherExcept, hg] at has
        | ok as' =>
          intro t' ht'
          rcases List.mem_cons.mp ht' with h | h
          · exact ⟨a, h⟩
          · exact (ih.mp ⟨as', hg⟩) t' h
      · intro h
        obtain ⟨as, has⟩ := ih.mpr (fun t' ht' => h t' (List.mem_cons_of_mem _ ht'))
        exact ⟨a :: as, by simp [gatherExcept, has]⟩

/-- A `gatherExcept` failure propagates an error of one of the tasks. -/
theorem gatherExcept_error_mem {ε α : Type} {ts : List (Except ε α)} {e : ε}
    (h : gatherExcept ts = Except.error e) : Except.error e ∈ ts := by
  induction ts with
  | nil => exact absurd h (by simp [gatherExcept])
  | cons t ts ih =>
    cases t with
    | error e' =>
      have : e' = e := by simpa [gatherExcept] using h
      simp [this]
    | ok a =>
      cases hg : gatherExcept ts with
      | error e' =>
        rw [gatherExcept, hg] at h
        have he : e' = e := by simpa using h
        subst he
        exact List.mem_cons_of_mem _ (ih hg)
      | ok as => rw [gatherExcept, hg] at h; simp at h

/-- A `gatherExcept` success has one result per task. -/
theorem gatherExcept_ok_length {ε α : Type} {ts : List (Except ε α)} {as : List α}
    (h : gatherExcept ts = Except.ok as) : as.length = ts.length := by
  induction ts generalizing as with
  | nil => simp [gatherExcept] at h; simp [← h]
  | cons t ts ih =>
    cases t with
    | error e => simp [gatherExcept] at h
    | ok a =>
      cases hg : gatherExcept ts with
      | error e => rw [gatherExcept, hg] at h; simp at h
      | ok as' =>
        rw [gatherExcept, hg] at h
        have : a :: as' = as := by simpa using h
        simp [← this, ih hg]

/-- Gathering pointwise-successful tasks yields the pointwise results. -/
theorem gatherExcept_map_ok_of_forall {ε α β : Type} {l : List β}
    {fe : β → Except ε α} {f : β → α} (h : ∀ x ∈ l, fe x = Except.ok (f x)) :
    gatherExcept (l.map fe) = Except.ok (l.map f) := by
  induction l with
  | nil => simp [gatherExcept]
  | cons x l ih =>
    have hx : fe x = Except.ok (f x) := h x (List.mem_cons_self x l)
    have hl : gatherExcept (l.map fe) = Except.ok (l.map f) :=
      ih (fun y hy => h y (List.mem_cons_of_mem _ hy))
    simp [gatherExcept, hx, hl]

/-!  ## Claim C1 -/

/-- Claim C1 (counterexample): the label-to-template mapping is not total
over the whole `FormatType` enumeration — looking up the `OTHER` label
fails, because `format_mapping` has keys `T1`–`T5` only. -/
theorem template_mapping_other_missing :
    ¬ ∀ t : FormatType, (lookupTemplate (FormatType.name t)).isSome = true := by
  decide

/-- Claim C1 (amended): the label-to-template mapping is total over the
five non-`OTHER` labels — for every `FormatType` other than `OTHER` the
lookup succeeds and yields the canonical rewrite template — while looking
up `OTHER` fails (the dictionary has no `OTHER` key). -/
theorem template_mapping_total_except_other :
    (∀ t : FormatType, t ≠ FormatType.OTHER →
      (lookupTemplate (FormatType.name t)).isSome = true)
    ∧ lookupTemplate (FormatType.name FormatType.OTHER) = none := by
  decide

/-- Claim C1 witness: the amended totality at the concrete label `T3`. -/
theorem template_mapping_total_except_other_witness :
    (lookupTemplate (FormatType.name FormatType.T3)).isSome = true :=
  template_mapping_total_except_other.1 FormatType.T3 (by decide)

/-!  ## Claim C5 -/

/-- Claim C5: for every record whose structured classification call
succeeds, the classifier stores exactly one label (one result per input
record), and every stored label is a member of the fixed enumerated label
set `FormatType.all`. -/
theorem classification_closed_set :
    ∀ (model : String → String → Except CallError FormatClassification)
      (df : List ReasoningRow) (rs : List FormatType),
      classify_reasoning_questions model df = Except.ok rs →
      rs.length = df.length ∧ ∀ r ∈ rs, r ∈ FormatType.all := by
  intro model df rs h
  unfold classify_reasoning_questions at h
  cases hg : gatherExcept (df.map fun row =>
      model system_prompt_classification_reasoning (classifyUserMessage row)) with
  | error e => rw [hg] at h; simp at h
  | ok rs0 =>
    rw [hg] at h
    have hrs : rs0.map FormatClassification.classification = rs := by simpa using h
    constructor
    · have h1 : rs0.length = df.length := by
        have := gatherExcept_ok_length hg
        simpa [List.length_map] using this
      simp [← hrs, List.length_map, h1]
    · intro r _
      cases r <;> simp [FormatType.all]

/-- Claim C5 witness: the concrete always-`T1` model over one record. -/
theorem classification_closed_set_witness :
    ([FormatType.T1].length = [(⟨"q"⟩ : ReasoningRow)].length)
    ∧ ∀ r ∈ [FormatType.T1], r ∈ FormatType.all :=
  classification_closed_set (pureClassifier fun _ => ⟨FormatType.T1⟩)
    [⟨"q"⟩] [FormatType.T1] rfl

/-!  ## Claim C9 -/

/-- The template lookup succeeds for every label except `OTHER`. -/
theorem lookupTemplate_isSome_of_ne_other :
    ∀ t : FormatType, t ≠ FormatType.OTHER →
      (lookupTemplate (FormatType.name t)).isSome = true := by
  decide

/-- For a row whose label is not `OTHER`, prompt construction succeeds with
the message `rewriteMessageTotal`. -/
theorem buildRewriteMessage_eq_ok {row : ClassifiedRow}
    (h : row.classification ≠ FormatType.OTHER) :
    buildRewriteMessage row = Except.ok (rewriteMessageTotal row) := by
  have h2 := lookupTemplate_isSome_of_ne_other row.classification h
  unfold buildRewriteMessage rewriteMessageTotal
  cases hl : lookupTemplate (FormatType.name row.classification) with
  | none => rw [hl] at h2; simp at h2
  | some tmpl => simp

/-- For a row labelled `OTHER`, prompt construction raises the `KeyError`
for key `"OTHER"`. -/
theorem buildRewriteMessage_other {row : ClassifiedRow}
    (h : row.classification = FormatType.OTHER) :
    buildRewriteMessage row = Except.error (StageError.keyError "OTHER") := by
  unfold buildRewriteMessage
  rw [h]
  rfl

/-- If some row is labelled `OTHER`, the prompt-construction phase fails
with the `KeyError` for `"OTHER"`. -/
theorem buildRewriteMessages_error_of_other {df : List ClassifiedRow}
    (h : ∃ r ∈ df, r.classification = FormatType.OTHER) :
    buildRewriteMessages df = Except.error (StageError.keyError "OTHER") := by
  induction df with
  | nil => simp at h
  | cons r rest ih =>
    by_cases hr : r.classification = FormatType.OTHER
    · simp [buildRewriteMessages, gatherExcept, buildRewriteMessage_other hr]
    · obtain ⟨r', hr', ho⟩ := h
      rcases List.mem_cons.mp hr' with rfl | hmem
      · exact absurd ho hr
      · have htl : buildRewriteMessages rest = Except.error (StageError.keyError "OTHER") :=
          ih ⟨r', hmem, ho⟩
        simp [buildRewriteMessages, gatherExcept, buildRewriteMessage_eq_ok hr] at htl ⊢
        simp [htl]

/-- If no row is labelled `OTHER`, the prompt-construction phase succeeds
with every row's message. -/
theorem buildRewriteMessages_ok_of_no_other {df : List ClassifiedRow}
    (h : ∀ r ∈ df, r.classification ≠ FormatType.OTHER) :
    buildRewriteMessages df = Except.ok (df.map rewriteMessageTotal) :=
  gatherExcept_map_ok_of_forall (fun r hr => buildRewriteMessage_eq_ok (h r hr))

/-- Claim C9: for every dataframe containing a record labelled `OTHER`, the
rewrite stage fails with the `KeyError` raised while building the prompts —
for *every* model function, so before any rewrite call is consulted — while
for dataframes whose labels all lie in `T1`–`T5` the template lookup
succeeds for every record and prompt construction yields every message. -/
theorem rewrite_other_key_error :
    ∀ (model : String → String → Except CallError UpdatedQuestion)
      (df : List ClassifiedRow),
      ((∃ r ∈ df, r.classification = FormatType.OTHER) →
        replace_reasoning_questions_format model df =
          Except.error (StageError.keyError "OTHER"))
      ∧ ((∀ r ∈ df, r.classification ≠ FormatType.OTHER) →
          buildRewriteMessages df = Except.ok (df.map rewriteMessageTotal)) := by
  intro model df
  constructor
  · intro h
    unfold replace_reasoning_questions_format
    rw [buildRewriteMessages_error_of_other h]
  · exact buildRewriteMessages_ok_of_no_other

/-- Claim C9 witness: one record labelled `OTHER` makes the stage fail with
the `KeyError`, under a model that would happily answer. -/
theorem rewrite_other_key_error_witness :
    replace_reasoning_questions_format (pureRewriter fun _ => ⟨"x"⟩)
      [⟨"q", FormatType.OTHER⟩] = Except.error (StageError.keyError "OTHER") :=
  (rewrite_other_key_error (pureRewriter fun _ => ⟨"x"⟩)
      [⟨"q", FormatType.OTHER⟩]).1
    ⟨⟨"q", FormatType.OTHER⟩, List.mem_singleton.mpr rfl, rfl⟩

/-!  ## Claim C2 -/

/-- Unfolding of the rewrite stage once prompt construction has
succeeded. -/
theorem replace_unfold_ok
    {model : String → String → Except CallError UpdatedQuestion}
    {df : List ClassifiedRow} {msgs : List String}
    (h : buildRewriteMessages df = Except.ok msgs) :
    replace_reasoning_questions_format model df =
      match gatherExcept (msgs.map fun m =>
          (model system_prompt_replace_reasoning_format m).mapError
            StageError.call) with
      | Except.error e => Except.error e
      | Except.ok rs => Except.ok (rs.map UpdatedQuestion.updated_question) := by
  unfold replace_reasoning_questions_format
  rw [h]

/-- Claim C2: batch failure is all-or-nothing for both stages.  A stage
returns a result list exactly when every record's structured-output call
succeeds, and when the stage fails with a call error, that error is the
propagated error of one of the records' calls — no partial result list is
ever produced.  (For the rewrite stage the records' labels are assumed to
lie in `T1`–`T5`, so that every prompt builds and the failure at issue is a
call failure.) -/
theorem batch_all_or_nothing :
    (∀ (model : String → String → Except CallError FormatClassification)
       (df : List ReasoningRow),
      ((∃ rs, classify_reasoning_questions model df = Except.ok rs) ↔
        ∀ r ∈ df, ∃ v,
          model system_prompt_classification_reasoning (classifyUserMessage r) =
            Except.ok v)
      ∧ ∀ e, classify_reasoning_questions model df = Except.error e →
          ∃ r ∈ df,
            model system_prompt_classification_reasoning (classifyUserMessage r) =
              Except.error e)
    ∧ (∀ (model : String → String → Except CallError UpdatedQuestion)
         (df : List ClassifiedRow),
        (∀ r ∈ df, r.classification ≠ FormatType.OTHER) →
        ((∃ us, replace_reasoning_questions_format model df = Except.ok us) ↔
          ∀ r ∈ df, ∃ v,
            model system_prompt_replace_reasoning_format (rewriteMessageTotal r) =
              Except.ok v)
        ∧ ∀ e,
            replace_reasoning_questions_format model df =
              Except.error (StageError.call e) →
            ∃ r ∈ df,
              model system_prompt_replace_reasoning_format (rewriteMessageTotal r) =
                Except.error e) := by
  constructor
  · intro model df
    constructor
    · constructor
      · rintro ⟨rs, hrs⟩
        unfold classify_reasoning_questions at hrs
        cases hg : gatherExcept (df.map fun row =>
            model system_prompt_classification_reasoning (classifyUserMessage row)) with
        | error e => rw [hg] at hrs; simp at hrs
        | ok as =>
          have hall := (gatherExcept_ok_iff _).mp ⟨as, hg⟩
          intro r hr
          exact hall _ (List.mem_map_of_mem _ hr)
      · intro hall
        obtain ⟨as, hg⟩ := (gatherExcept_ok_iff (df.map fun row =>
            model system_prompt_classification_reasoning (classifyUserMessage row))).mpr (by
          intro t ht
          obtain ⟨r, hr, rfl⟩ := List.mem_map.mp ht
          exact hall r hr)
        exact ⟨as.map FormatClassification.classification,
          by unfold classify_reasoning_questions; rw [hg]⟩
    · intro e he
      unfold classify_reasoning_questions at he
      cases hg : gatherExcept (df.map fun row =>
          model system_prompt_classification_reasoning (classifyUserMessage row)) with
      | error e' =>
        rw [hg] at he
        have : e' = e := by simpa using he
        subst this
        have hmem := gatherExcept_error_mem hg
        obtain ⟨r, hr, hfr⟩ := List.mem_map.mp hmem
        exact ⟨r, hr, hfr⟩
      | ok as => rw [hg] at he; simp at he
  · intro model df hno
    have hmsgs : buildRewriteMessages df = Except.ok (df.map rewriteMessageTotal) :=
      buildRewriteMessages_ok_of_no_other hno
    have hcall : ∀ m : String,
        (∀ v, ((model system_prompt_replace_reasoning_format m).mapError
            StageError.call = Except.ok v ↔
          model system_prompt_replace_reasoning_format m = Except.ok v))
        ∧ ∀ e, ((model system_prompt_replace_reasoning_format m).mapError
            StageError.call = Except.error (StageError.call e) ↔
          model system_prompt_replace_reasoning_format m = Except.error e) := by
      intro m
      cases hm : model system_prompt_replace_reasoning_format m with
      | error e => simp [Except.mapError]
      | ok v => simp [Except.mapError]
    constructor
    · constructor
      · rintro ⟨us, hus⟩
        rw [replace_unfold_ok hmsgs] at hus
        cases hg : gatherExcept ((df.map rewriteMessageTotal).map fun m =>
            (model system_prompt_replace_reasoning_format m).mapError
              StageError.call) with
        | error e => rw [hg] at hus; simp at hus
        | ok as =>
          have hall := (gatherExcept_ok_iff _).mp ⟨as, hg⟩
          intro r hr
          obtain ⟨v, hv⟩ := hall _ (List.mem_map_of_mem _ (List.mem_map_of_mem _ hr))
          exact ⟨v, ((hcall (rewriteMessageTotal r)).1 v).mp hv⟩
      · intro hall
        obtain ⟨as, hg⟩ := (gatherExcept_ok_iff
            ((df.map rewriteMessageTotal).map fun m =>
              (model system_prompt_replace_reasoning_format m).mapError
                StageError.call)).mpr (by
          intro t ht
          obtain ⟨m, hm, rfl⟩ := List.mem_map.mp ht
          obtain ⟨r, hr, rfl⟩ := List.mem_map.mp hm
          obtain ⟨v, hv⟩ := hall r hr
          exact ⟨v, ((hcall (rewriteMessageTotal r)).1 v).mpr hv⟩)
        refine ⟨as.map UpdatedQuestion.updated_question, ?_⟩
        rw [replace_unfold_ok hmsgs, hg]
    · intro e he
      rw [replace_unfold_ok hmsgs] at he
      cases hg : gatherExcept ((df.map rewriteMessageTotal).map fun m =>
          (model system_prompt_replace_reasoning_format m).mapError
            StageError.call) with
      | error e' =>
        rw [hg] at he
        have : e' = StageError.call e := by simpa using he
        subst this
        have hmem := gatherExcept_error_mem hg
        obtain ⟨m, hm, hfm⟩ := List.mem_map.mp hmem
        obtain ⟨r, hr, rfl⟩ := List.mem_map.mp hm
        exact ⟨r, hr, ((hcall (rewriteMessageTotal r)).2 e).mp hfm⟩
      | ok as => rw [hg] at he; simp at he

/-- Claim C2 witness: a model that fails every call makes the classify
stage of a one-record batch fail with exactly that propagated error. -/
theorem batch_all_or_nothing_witness :
    (fun (_ _ : String) =>
        (Except.error CallError.transportError : Except CallError FormatClassification))
      system_prompt_classification_reasoning
      (classifyUserMessage ⟨"q"⟩) = Except.error CallError.transportError := by
  obtain ⟨r, hr, he⟩ := (batch_all_or_nothing.1
    (fun _ _ => Except.error CallError.transportError) [⟨"q"⟩]).2
    CallError.transportError rfl
  exact he

/-!  ## Claim C3 -/

/-- Starting an operation raises the in-flight count by one. -/
theorem inFlight_set_running {s : SemState} {i : Nat} (hi : i < s.tasks.length)
    (hp : s.tasks[i] = TaskPhase.pending) :
    inFlight ⟨s.tasks.set i TaskPhase.running⟩ = inFlight s + 1 := by
  show (s.tasks.set i TaskPhase.running).count TaskPhase.running =
    s.tasks.count TaskPhase.running + 1
  rw [List.count_set TaskPhase.running TaskPhase.running s.tasks i hi, hp]
  simp

/-- Finishing an operation lowers the in-flight count by one. -/
theorem inFlight_set_done {s : SemState} {i : Nat} (hi : i < s.tasks.length)
    (hr : s.tasks[i] = TaskPhase.running) :
    inFlight ⟨s.tasks.set i TaskPhase.done⟩ = inFlight s - 1 := by
  show (s.tasks.set i TaskPhase.done).count TaskPhase.running =
    s.tasks.count TaskPhase.running - 1
  rw [List.count_set TaskPhase.done TaskPhase.running s.tasks i hi, hr]
  simp

/-- Claim C3: concurrency bound invariant.  In every state a batch run over
`n` record operations can reach under `Semaphore(K)`, at most `K`
operations are simultaneously in flight awaiting their external call: an
operation that would exceed `K` cannot take the `start` transition until a
slot is released.  (`K` instantiates to `defaultConcurrency = 30` when the
stages are called without an explicit `concurrency` argument.) -/
theorem semaphore_bound_invariant :
    ∀ (K n : Nat) (s : SemState), SemReachable K n s → inFlight s ≤ K := by
  intro K n s h
  unfold SemReachable at h
  induction h with
  | refl =>
    show inFlight (semInit n) ≤ K
    unfold inFlight semInit
    simp [List.count_replicate]
  | tail hab hbc ih =>
    cases hbc with
    | start i hi hp hk =>
      rw [inFlight_set_running hi hp]
      omega
    | finish i hi hr =>
      rw [inFlight_set_done hi hr]
      omega

/-- Claim C3 witness: the initial state of a three-record batch under the
default bound. -/
theorem semaphore_bound_invariant_witness :
    inFlight (semInit 3) ≤ defaultConcurrency :=
  semaphore_bound_invariant defaultConcurrency 3 (semInit 3)
    Relation.ReflTransGen.refl

/-!  ## Claim C4 -/

/-- A slot of the result array holds task `j`'s result as soon as `j` has
completed, independent of the completion order processed so far. -/
theorem completeTasks_eq {α : Type} (f : Nat → α) :
    ∀ (order : List Nat) (acc : Nat → Option α) (j : Nat),
      completeTasks f order acc j =
        if j ∈ order then some (f j) else acc j := by
  intro order
  induction order with
  | nil => intro acc j; simp [completeTasks]
  | cons i rest ih =>
    intro acc j
    rw [completeTasks, ih]
    by_cases hj : j ∈ rest
    · simp [hj, List.mem_cons]
    · by_cases hji : j = i
      · simp [hj, hji, List.mem_cons]
      · simp [hj, hji, List.mem_cons]

/-- The classify stage under a deterministic, always-succeeding model maps
every row to the model's answer for that row's message. -/
theorem classify_pure_eq (g : String → FormatClassification)
    (df : List ReasoningRow) :
    classify_reasoning_questions (pureClassifier g) df =
      Except.ok (df.map fun r => (g (classifyUserMessage r)).classification) := by
  unfold classify_reasoning_questions
  have hg : gatherExcept (df.map fun row =>
      pureClassifier g system_prompt_classification_reasoning
        (classifyUserMessage row)) =
      Except.ok (df.map fun r => g (classifyUserMessage r)) :=
    gatherExcept_map_ok_of_forall (fun r _ => rfl)
  rw [hg]
  simp [List.map_map, Function.comp]

/-- The rewrite stage under a deterministic, always-succeeding model maps
every row (whose label has a template) to the model's answer for that row's
message. -/
theorem rewrite_pure_eq (g : String → UpdatedQuestion) (df : List ClassifiedRow)
    (hno : ∀ r ∈ df, r.classification ≠ FormatType.OTHER) :
    replace_reasoning_questions_format (pureRewriter g) df =
      Except.ok (df.map fun r => (g (rewriteMessageTotal r)).updated_question) := by
  rw [replace_unfold_ok (buildRewriteMessages_ok_of_no_other hno)]
  have hg : gatherExcept ((df.map rewriteMessageTotal).map fun m =>
      (pureRewriter g system_prompt_replace_reasoning_format m).mapError
        StageError.call) =
      Except.ok ((df.map rewriteMessageTotal).map g) :=
    gatherExcept_map_ok_of_forall (fun m _ => rfl)
  rw [hg]
  simp [List.map_map, Function.comp]

/-- Claim C4: order independence.  For every deterministic model function,
permuting the input record order and re-running a stage yields, for each
record identified by its original index, the same classification result and
the same rewrite result; and the slot assembly of the join yields task
`j`'s result in slot `j` for every completion order of the concurrent
calls. -/
theorem order_independence :
    (∀ (g : String → FormatClassification) (df : List ReasoningRow)
       (σ : Equiv.Perm (Fin df.length)),
      ∃ rs rs',
        classify_reasoning_questions (pureClassifier g) df = Except.ok rs
        ∧ classify_reasoning_questions (pureClassifier g)
            (List.ofFn fun j => df.get (σ j)) = Except.ok rs'
        ∧ ∀ j : Fin df.length, rs'.get? j.val = rs.get? (σ j).val)
    ∧ (∀ (g : String → UpdatedQuestion) (df : List ClassifiedRow)
         (σ : Equiv.Perm (Fin df.length)),
        (∀ r ∈ df, r.classification ≠ FormatType.OTHER) →
        ∃ us us',
          replace_reasoning_questions_format (pureRewriter g) df = Except.ok us
          ∧ replace_reasoning_questions_format (pureRewriter g)
              (List.ofFn fun j => df.get (σ j)) = Except.ok us'
          ∧ ∀ j : Fin df.length, us'.get? j.val = us.get? (σ j).val)
    ∧ (∀ (g : String → FormatClassification) (df : List ReasoningRow)
         (order : List Nat), (∀ j, j < df.length → j ∈ order) →
        ∀ j, j < df.length →
          completeTasks (fun i =>
              (g (classifyUserMessage (df.getD i ⟨""⟩))).classification)
            order (fun _ => none) j =
          some ((g (classifyUserMessage (df.getD j ⟨""⟩))).classification)) := by
  refine ⟨?_, ?_, ?_⟩
  · intro g df σ
    refine ⟨_, _, classify_pure_eq g df,
      classify_pure_eq g (List.ofFn fun j => df.get (σ j)), ?_⟩
    intro j
    rw [List.get?_map, List.get?_map, List.get?_ofFn,
      List.get?_eq_get ((σ j).isLt)]
    simp [List.ofFnNthVal, j.isLt, Fin.eta]
  · intro g df σ hno
    have hno' : ∀ r ∈ (List.ofFn fun j => df.get (σ j)),
        r.classification ≠ FormatType.OTHER := by
      intro r hr
      obtain ⟨j, hj⟩ := (List.mem_ofFn _ _).mp hr
      exact hno r (hj ▸ List.get_mem df _ _)
    refine ⟨_, _, rewrite_pure_eq g df hno,
      rewrite_pure_eq g (List.ofFn fun j => df.get (σ j)) hno', ?_⟩
    intro j
    rw [List.get?_map, List.get?_map, List.get?_ofFn,
      List.get?_eq_get ((σ j).isLt)]
    simp [List.ofFnNthVal, j.isLt, Fin.eta]
  · intro g df order hcover j hj
    rw [completeTasks_eq]
    simp [hcover j hj]

/-- Claim C4 witness: a one-record batch whose single completion event
fills slot `0` with the deterministic model's answer. -/
theorem order_independence_witness :
    completeTasks (fun i =>
        ((fun _ => (⟨FormatType.T2⟩ : FormatClassification))
            (classifyUserMessage (([⟨"a"⟩] : List ReasoningRow).getD i ⟨""⟩))).classification)
      [0] (fun _ => none) 0 = some FormatType.T2 := by
  have h := order_independence.2.2 (fun _ => ⟨FormatType.T2⟩)
    [⟨"a"⟩] [0] (by
      intro j hj
      have hj0 : j = 0 := Nat.lt_one_iff.mp hj
      simp [hj0]) 0 (by decide)
  simpa using h

/-!  ## String lemmas for the replacement chains -/

/-- A head that is not `c` survives replacement of the pattern `[c, c]`. -/
theorem pyReplaceFuel_head_ne (c a : Char) (fuel : Nat) (rest : List Char)
    (ha : a ≠ c) :
    (pyReplaceFuel [c, c] [] fuel (a :: rest)).head? = some a := by
  cases fuel with
  | zero => rfl
  | succ f =>
    have hnp : ¬(([c, c] : List Char) ≠ [] ∧
        ([c, c] : List Char).isPrefixOf (a :: rest)) := by
      rintro ⟨-, hp⟩
      rcases List.cons_prefix_cons.mp ( List.isPrefixOf_iff_prefix.mp hp) with ⟨hac, -⟩
      exact ha hac.symm
    rw [pyReplaceFuel, if_neg hnp]
    rfl

/-- Replacing the pattern `[c, c]` by nothing leaves no two adjacent
occurrences of `c` in the output. -/
theorem noTwoAdjB_pyReplaceFuel (c : Char) :
    ∀ (fuel : Nat) (s : List Char), s.length ≤ fuel →
      noTwoAdjB c (pyReplaceFuel [c, c] [] fuel s) = true := by
  intro fuel
  induction fuel with
  | zero =>
    intro s hs
    have hnil : s = [] := List.length_eq_zero.mp (Nat.le_zero.mp hs)
    subst hnil
    rfl
  | succ f ih =>
    intro s hs
    cases s with
    | nil => rfl
    | cons a rest =>
      by_cases hm : (([c, c] : List Char) ≠ [] ∧
          ([c, c] : List Char).isPrefixOf (a :: rest))
      · rw [pyReplaceFuel, if_pos hm]
        rw [List.nil_append]
        apply ih
        have hlen : (rest.drop 1).length = rest.length - 1 := List.length_drop 1 rest
        simp only [List.length_cons] at hs
        show (rest.drop (([c, c] : List Char).length - 1)).length ≤ f
        simp only [List.length_cons, List.length_nil]
        rw [(by rfl : (2 : Nat) - 1 = 1), hlen]
        omega
      · rw [pyReplaceFuel, if_neg hm]
        have hrest : noTwoAdjB c (pyReplaceFuel [c, c] [] f rest) = true := by
          apply ih
          simp only [List.length_cons] at hs
          omega
        cases ht : pyReplaceFuel [c, c] [] f rest with
        | nil => rfl
        | cons b t =>
          rw [ht] at hrest
          rw [noTwoAdjB, hrest, Bool.and_true]
          by_cases hac : a = c
          · subst hac
            have hnp : ¬ (([a, a] : List Char).isPrefixOf (a :: rest)) :=
              fun hp => hm ⟨by simp, hp⟩
            cases rest with
            | nil => simp [pyReplaceFuel] at ht
            | cons d rest' =>
              have hd : d ≠ a := by
                intro hda
                subst hda
                exact hnp (by simp [List.isPrefixOf])
              have hhd := pyReplaceFuel_head_ne a d f rest' hd
              rw [ht] at hhd
              have hbd : b = d := by simpa using hhd
              subst hbd
              simp [hd]
          · simp [hac]

/-- A list with no two adjacent occurrences of `c` has no `[c, c]`
substring. -/
theorem noTwoAdjB_no_occurrence (c : Char) :
    ∀ t : List Char, noTwoAdjB c t = true → ¬ ([c, c] <:+: t) := by
  intro t
  induction t with
  | nil => intro _ hinf; simp at hinf
  | cons a t' ih =>
    intro h hinf
    rcases List.infix_cons_iff.mp hinf with hp | hinf'
    · rcases List.cons_prefix_cons.mp hp with ⟨hca, hp'⟩
      cases t' with
      | nil => simp at hp'
      | cons b u =>
        rcases List.cons_prefix_cons.mp hp' with ⟨hcb, -⟩
        subst hca
        rw [noTwoAdjB] at h
        simp [← hcb] at h
    · cases t' with
      | nil => simp at hinf'
      | cons b u =>
        rw [noTwoAdjB, Bool.and_eq_true] at h
        exact ih h.2 hinf'

/-- The output of replacing `[c, c]` by nothing has no `[c, c]`
substring. -/
theorem pyReplace_cc_no_occurrence (c : Char) (s : List Char) :
    ¬ ([c, c] <:+: pyReplace [c, c] [] s) :=
  noTwoAdjB_no_occurrence c _ (noTwoAdjB_pyReplaceFuel c s.length s le_rfl)

/-- Replacement is the identity on strings without an occurrence of the
pattern. -/
theorem pyReplaceFuel_eq_self_of_no_occurrence {pat : List Char} (rep : List Char) :
    ∀ (fuel : Nat) (s : List Char), ¬ (pat <:+: s) →
      pyReplaceFuel pat rep fuel s = s := by
  intro fuel
  induction fuel with
  | zero => intro s _; cases s <;> rfl
  | succ f ih =>
    intro s h
    cases s with
    | nil => rfl
    | cons a rest =>
      have hnp : ¬ (pat ≠ [] ∧ pat.isPrefixOf (a :: rest)) := by
        rintro ⟨-, hp⟩
        exact h ( List.isPrefixOf_iff_prefix.mp hp).isInfix
      rw [pyReplaceFuel, if_neg hnp]
      have hrest : ¬ (pat <:+: rest) :=
        fun hi => h (List.infix_cons_iff.mpr (Or.inr hi))
      rw [ih rest hrest]

/-- `pyReplace` is the identity on strings without an occurrence of the
pattern. -/
theorem pyReplace_eq_self_of_no_occurrence {pat : List Char} (rep : List Char)
    {s : List Char} (h : ¬ (pat <:+: s)) : pyReplace pat rep s = s :=
  pyReplaceFuel_eq_self_of_no_occurrence rep s.length s h

/-- Stripping yields a contiguous substring of the input. -/
theorem pyStrip_substring (s : List Char) : pyStrip s <:+: s := by
  have h1 : s.dropWhile Char.isWhitespace <:+ s := List.dropWhile_suffix _
  have h2 : (s.dropWhile Char.isWhitespace).reverse.dropWhile Char.isWhitespace <:+
      (s.dropWhile Char.isWhitespace).reverse := List.dropWhile_suffix _
  have h3 : ((s.dropWhile Char.isWhitespace).reverse.dropWhile
      Char.isWhitespace).reverse <+: s.dropWhile Char.isWhitespace :=
    List.reverse_suffix.mp (by simpa using h2)
  exact List.IsInfix.trans h3.isInfix h1.isInfix

/-- The head of a `dropWhile` output does not satisfy the predicate. -/
theorem dropWhile_head_not (p : Char → Bool) (l : List Char) :
    ∀ d, (l.dropWhile p).head? = some d → p d = false := by
  intro d hd
  have h := List.head?_dropWhile_not p l
  rw [hd] at h
  exact h

/-- A nonempty prefix shares its head with the longer list. -/
theorem prefix_head_eq {l₁ l₂ : List Char} (h : l₁ <+: l₂) {d : Char}
    (hd : l₁.head? = some d) : l₂.head? = some d := by
  obtain ⟨r, rfl⟩ := h
  rw [List.head?_append, hd]
  rfl

/-- A stripped string does not start with whitespace. -/
theorem pyStrip_head (s : List Char) :
    ∀ d, (pyStrip s).head? = some d → d.isWhitespace = false := by
  intro d hd
  have h2 : (s.dropWhile Char.isWhitespace).reverse.dropWhile Char.isWhitespace <:+
      (s.dropWhile Char.isWhitespace).reverse := List.dropWhile_suffix _
  have h3 : pyStrip s <+: s.dropWhile Char.isWhitespace :=
    List.reverse_suffix.mp (by simpa [pyStrip] using h2)
  exact dropWhile_head_not Char.isWhitespace s d (prefix_head_eq h3 hd)

/-- A stripped string does not end with whitespace. -/
theorem pyStrip_last (s : List Char) :
    ∀ d, (pyStrip s).getLast? = some d → d.isWhitespace = false := by
  intro d hd
  unfold pyStrip at hd
  rw [List.getLast?_reverse] at hd
  exact dropWhile_head_not Char.isWhitespace _ d hd

/-- `dropWhile` is the identity when the head does not satisfy the
predicate. -/
theorem dropWhile_eq_self_of_head (p : Char → Bool) (l : List Char)
    (h : ∀ d, l.head? = some d → p d = false) : l.dropWhile p = l := by
  cases l with
  | nil => rfl
  | cons a t =>
    have ha : p a = false := h a rfl
    simp [List.dropWhile_cons, ha]

/-- Stripping is the identity on strings with no whitespace at either
end. -/
theorem pyStrip_eq_self (u : List Char)
    (hh : ∀ d, u.head? = some d → d.isWhitespace = false)
    (hl : ∀ d, u.getLast? = some d → d.isWhitespace = false) :
    pyStrip u = u := by
  unfold pyStrip
  rw [dropWhile_eq_self_of_head _ u hh]
  rw [dropWhile_eq_self_of_head _ u.reverse (by
    intro d hd
    rw [List.head?_reverse] at hd
    exact hl d hd)]
  exact List.reverse_reverse u

/-- Stripping twice is stripping once. -/
theorem pyStrip_idem (s : List Char) : pyStrip (pyStrip s) = pyStrip s :=
  pyStrip_eq_self (pyStrip s) (pyStrip_head s) (pyStrip_last s)

/-!  ## Claim C10 -/

/-- The `scripts/` reasoning replacement chain, at the character-list
level. -/
theorem scripts_chain_data (s : String) :
    (ScriptsUpdate.scripts_updated_question s).data =
      pyStrip (pyReplace ['*', '*'] []
        (pyReplace ("in **bold**".data) [] s.data)) := rfl

/-- Claim C10: the reasoning string-replacement chain (drop every
`"in **bold**"`, drop every `"**"`, strip) is idempotent — applying it to
its own output returns the output unchanged — and its output contains no
occurrence of the substring `"**"` and no leading or trailing
whitespace. -/
theorem replacement_chain_idempotent (s : String) :
    ScriptsUpdate.scripts_updated_question
        (ScriptsUpdate.scripts_updated_question s) =
      ScriptsUpdate.scripts_updated_question s
    ∧ ¬ (['*', '*'] <:+: (ScriptsUpdate.scripts_updated_question s).data)
    ∧ noEdgeSpace (ScriptsUpdate.scripts_updated_question s).data = true := by
  have hz : ¬ (['*', '*'] <:+:
      pyReplace ['*', '*'] [] (pyReplace ("in **bold**".data) [] s.data)) :=
    pyReplace_cc_no_occurrence '*' _
  have hnot : ¬ (['*', '*'] <:+:
      (ScriptsUpdate.scripts_updated_question s).data) := by
    rw [scripts_chain_data]
    exact fun hi => hz (hi.trans (pyStrip_substring _))
  have hhead : ∀ d,
      ((ScriptsUpdate.scripts_updated_question s).data).head? = some d →
        d.isWhitespace = false := by
    rw [scripts_chain_data]
    exact pyStrip_head _
  have hlast : ∀ d,
      ((ScriptsUpdate.scripts_updated_question s).data).getLast? = some d →
        d.isWhitespace = false := by
    rw [scripts_chain_data]
    exact pyStrip_last _
  refine ⟨?_, hnot, ?_⟩
  · have hbold : ¬ (("in **bold**".data) <:+:
        (ScriptsUpdate.scripts_updated_question s).data) :=
      fun hi => hnot
        (List.IsInfix.trans
          (by decide : (['*', '*'] : List Char) <:+: ("in **bold**".data)) hi)
    have h1 : pyReplace ("in **bold**".data) []
        (ScriptsUpdate.scripts_updated_question s).data =
        (ScriptsUpdate.scripts_updated_question s).data :=
      pyReplace_eq_self_of_no_occurrence [] hbold
    have h2 : pyReplace ['*', '*'] []
        (ScriptsUpdate.scripts_updated_question s).data =
        (ScriptsUpdate.scripts_updated_question s).data :=
      pyReplace_eq_self_of_no_occurrence [] hnot
    have h3 : pyStrip (ScriptsUpdate.scripts_updated_question s).data =
        (ScriptsUpdate.scripts_updated_question s).data := by
      rw [scripts_chain_data]
      exact pyStrip_idem _
    apply String.ext
    rw [scripts_chain_data (ScriptsUpdate.scripts_updated_question s), h1, h2, h3]
  · unfold noEdgeSpace
    rw [Bool.and_eq_true]
    constructor
    · cases hh : ((ScriptsUpdate.scripts_updated_question s).data).head? with
      | none => rfl
      | some d => simp [hhead d hh]
    · cases hl : ((ScriptsUpdate.scripts_updated_question s).data).getLast? with
      | none => rfl
      | some d => simp [hlast d hl]

/-!  ## Claim C6 -/

/-- Claim C6 (counterexample): a dataset whose only record has two `turns`
entries but carries `task = "AMPS_Hard"` does *not* abort
`process_math_questions` — the record is dropped by the
`query("task != 'AMPS_Hard'")` filter before the assertion runs, and the
stage returns successfully (writing its outputs). -/
theorem fail_fast_assertion_counterexample :
    ExtrasUpdate.process_math_questions
        [{ turns := ["a", "b"], ground_truth := "g", task := "AMPS_Hard" }] =
      Except.ok []
    ∧ (["a", "b"] : List String).length ≠ 1 := by
  exact ⟨rfl, by decide⟩

/-- Claim C6 (amended): the shape assertion aborts the stage — with no
output produced (and these stage functions issue no model calls at all) —
whenever some record *processed by the stage* has a `turns` array whose
length is not one.  For the reasoning stage that is every input record; the
math stage first drops the `AMPS_Hard` records, so only the surviving
records are checked. -/
theorem fail_fast_assertion :
    (∀ df : List InputRecord, (∃ r ∈ df, r.turns.length ≠ 1) →
      ScriptsUpdate.process_reasoning_questions df =
        Except.error DataError.assertionFailed)
    ∧ (∀ df : List InputRecord,
        (∃ r ∈ df, r.task ≠ "AMPS_Hard" ∧ r.turns.length ≠ 1) →
        ExtrasUpdate.process_math_questions df =
          Except.error DataError.assertionFailed) := by
  constructor
  · rintro df ⟨r, hr, hlen⟩
    have hc : df.all (fun r => r.turns.length == 1) = false := by
      rw [List.all_eq_false]
      exact ⟨r, hr, by simpa using hlen⟩
    unfold ScriptsUpdate.process_reasoning_questions
    rw [hc]
    rfl
  · rintro df ⟨r, hr, htask, hlen⟩
    have hmem : r ∈ df.filter (fun r => r.task != "AMPS_Hard") :=
      List.mem_filter.mpr ⟨hr, bne_iff_ne.mpr htask⟩
    have hc : (df.filter (fun r => r.task != "AMPS_Hard")).all
        (fun r => r.turns.length == 1) = false := by
      rw [List.all_eq_false]
      exact ⟨r, hmem, by simpa using hlen⟩
    simp only [ExtrasUpdate.process_math_questions, hc]
    rfl

/-- Claim C6 witness: a record with an empty `turns` array aborts the
reasoning stage. -/
theorem fail_fast_assertion_witness :
    ScriptsUpdate.process_reasoning_questions
        [{ turns := [], ground_truth := "g", task := "t" }] =
      Except.error DataError.assertionFailed :=
  fail_fast_assertion.1 _
    ⟨{ turns := [], ground_truth := "g", task := "t" },
      List.mem_singleton.mpr rfl, by decide⟩

/-!  ## Claim C7 -/

/-- Claim C7 (counterexample): a well-shaped input record with
`task = "AMPS_Hard"` is dropped by `process_math_questions` — one input
record, zero output records. -/
theorem one_output_per_record_counterexample :
    ExtrasUpdate.process_math_questions
        [{ turns := ["x"], ground_truth := "g", task := "AMPS_Hard" }] =
      Except.ok []
    ∧ ([{ turns := ["x"], ground_truth := "g", task := "AMPS_Hard" }] :
        List InputRecord).length = 1 :=
  ⟨rfl, rfl⟩

/-- Claim C7 (amended): each stage writes exactly one output record per
record it processes, each carried through with its added fields.  The
reasoning stage processes every input record, so its output has one record
per input record, preserving each record's `turns` by position; the math
stage first drops the `AMPS_Hard` records and emits one output record per
*surviving* record. -/
theorem one_output_per_surviving_record :
    (∀ (df : List InputRecord) (out : List ScriptsUpdate.ReasoningOut),
      ScriptsUpdate.process_reasoning_questions df = Except.ok out →
      out.length = df.length
      ∧ ∀ (i : Nat) (hi : i < out.length) (hi' : i < df.length),
          (out.get ⟨i, hi⟩).turns = (df.get ⟨i, hi'⟩).turns)
    ∧ (∀ (df : List InputRecord) (out : List ExtrasUpdate.MathOut),
        ExtrasUpdate.process_math_questions df = Except.ok out →
        out.length = (df.filter (fun r => r.task != "AMPS_Hard")).length) := by
  constructor
  · intro df out h
    unfold ScriptsUpdate.process_reasoning_questions at h
    by_cases hc : df.all (fun r => r.turns.length == 1)
    · rw [if_pos hc] at h
      obtain rfl := Except.ok.inj h
      constructor
      · simp [List.enum_length]
      · intro i hi hi'
        simp [List.get_eq_getElem, List.getElem_map, List.getElem_enum]
    · rw [if_neg hc] at h
      cases h
  · intro df out h
    simp only [ExtrasUpdate.process_math_questions] at h
    by_cases hc : (df.filter (fun r => r.task != "AMPS_Hard")).all
        (fun r => r.turns.length == 1)
    · rw [if_pos hc] at h
      obtain rfl := Except.ok.inj h
      simp
    · rw [if_neg hc] at h
      cases h

/-- Claim C7 witness: a one-record reasoning input yields a one-record
output. -/
theorem one_output_per_surviving_record_witness :
    ([{ data_point_id := 0, turns := ["a"], ground_truth := "g",
        turns_str := some "a", updated_question := some "a" }] :
      List ScriptsUpdate.ReasoningOut).length =
      ([{ turns := ["a"], ground_truth := "g", task := "t" }] :
        List InputRecord).length :=
  (one_output_per_surviving_record.1
    [{ turns := ["a"], ground_truth := "g", task := "t" }]
    [{ data_point_id := 0, turns := ["a"], ground_truth := "g",
        turns_str := some "a", updated_question := some "a" }] rfl).1

/-!  ## Claim C8 -/

/-- Claim C8: the two versions of the update-livebench-questions script
differ exactly as described — the `scripts/` version adds a
`data_point_id` column holding the record's positional index while the
`extras/` version adds no such column, and the two reasoning
text-replacement chains disagree (concretely on `"a***b"`: the `scripts/`
chain yields `"a*b"`, the `extras/` chain — which also removes `"***"` —
yields `"ab"`). -/
theorem two_script_versions_differ :
    "data_point_id" ∈ ScriptsUpdate.reasoningColumns
    ∧ "data_point_id" ∉ ExtrasUpdate.reasoningColumns
    ∧ (∀ (df : List InputRecord) (out : List ScriptsUpdate.ReasoningOut),
        ScriptsUpdate.process_reasoning_questions df = Except.ok out →
        ∀ (i : Nat) (hi : i < out.length),
          (out.get ⟨i, hi⟩).data_point_id = i)
    ∧ ScriptsUpdate.scripts_updated_question "a***b" ≠
        ExtrasUpdate.extras_updated_question "a***b" := by
  refine ⟨by decide, by decide, ?_, by decide⟩
  intro df out h i hi
  unfold ScriptsUpdate.process_reasoning_questions at h
  by_cases hc : df.all (fun r => r.turns.length == 1)
  · rw [if_pos hc] at h
    obtain rfl := Except.ok.inj h
    simp [List.get_eq_getElem, List.getElem_map, List.getElem_enum]
  · rw [if_neg hc] at h
    cases h

/-- Claim C8 witness: the added column of the `scripts/` version holds the
positional index on a concrete one-record input. -/
theorem two_script_versions_differ_witness :
    (([({ data_point_id := 0, turns := ["a"], ground_truth := "g",
          turns_str := some "a", updated_question := some "a" } :
        ScriptsUpdate.ReasoningOut)] :
      List ScriptsUpdate.ReasoningOut).get ⟨0, by decide⟩).data_point_id = 0 :=
  two_script_versions_differ.2.2.1
    [{ turns := ["a"], ground_truth := "g", task := "t" }]
    [{ data_point_id := 0, turns := ["a"], ground_truth := "g",
        turns_str := some "a", updated_question := some "a" }] rfl 0 (by decide)

/-- Claim C10 witness: idempotence of the chain on a concrete string. -/
theorem replacement_chain_idempotent_witness :
    ScriptsUpdate.scripts_updated_question
        (ScriptsUpdate.scripts_updated_question "  answer in **bold** now  ") =
      ScriptsUpdate.scripts_updated_question "  answer in **bold** now  " :=
  (replacement_chain_idempotent "  answer in **bold** now  ").1
